import Mathlib

/-!
Verification of the fuzzy text locator of `back/app/pdf_processor.py`
(class `PDFProcessor`): the methods `find_text_coordinates`,
`find_text_fuzzy`, `_fuzzy_line_search`, `_calculate_match_score` and
`_similarity`, shallowly embedded over rational page coordinates.

A page is modelled by its layout dictionary (blocks of lines of spans,
as returned by `page.get_text("dict")`) together with the PyMuPDF
search primitive `page.search_for`, taken as an abstract function from
query strings to lists of raw match rectangles.
-/

namespace LegalCat

/-- Python whitespace (the ASCII characters matched by `\s` and split
on by `str.split()` / `str.strip()` for the inputs at hand). -/
def pyIsSpace (c : Char) : Bool :=
  c = ' ' ∨ c = '\t' ∨ c = '\n' ∨ c = '\r' ∨ c = '\x0b' ∨ c = '\x0c'

/-- `str.strip()` on the character list: drop leading and trailing
whitespace. -/
def pyStripL (l : List Char) : List Char :=
  ((l.dropWhile pyIsSpace).reverse.dropWhile pyIsSpace).reverse

/-- `str.strip()`. -/
def pyStrip (s : String) : String :=
  String.mk (pyStripL s.toList)

/-- `re.sub(r'\s+', ' ', ·)` on the character list: replace every
maximal run of whitespace by a single space.  The flag records whether
the previous character was whitespace (i.e. whether a run is open). -/
def collapseWsL : List Char → Bool → List Char
  | [], _ => []
  | c :: rest, inRun =>
    if pyIsSpace c then
      if inRun then collapseWsL rest true
      else ' ' :: collapseWsL rest true
    else c :: collapseWsL rest false

/-- `re.sub(r'\s+', ' ', s)`. -/
def reSubWs (s : String) : String :=
  String.mk (collapseWsL s.toList false)

/-- `s.lower()` (ASCII case folding, which covers the program's inputs). -/
def pyLower (s : String) : String :=
  String.mk (s.toList.map Char.toLower)

/-- Helper for `str.split()`: `acc` is the reversed current word. -/
def pySplitAux : List Char → List Char → List String
  | [], acc => if acc.isEmpty then [] else [String.mk acc.reverse]
  | c :: rest, acc =>
    if pyIsSpace c then
      if acc.isEmpty then pySplitAux rest []
      else String.mk acc.reverse :: pySplitAux rest []
    else pySplitAux rest (c :: acc)

/-- `s.split()`: split on whitespace runs, discarding empty pieces. -/
def pySplit (s : String) : List String :=
  pySplitAux s.toList []

/-- Is `pre` a prefix of the second list (character-wise)? -/
def listIsPre : List Char → List Char → Bool
  | [], _ => true
  | _ :: _, [] => false
  | a :: as, b :: bs => a = b && listIsPre as bs

/-- Substring test on character lists: does `hay` contain `needle`? -/
def listHas (needle : List Char) : List Char → Bool
  | [] => needle.isEmpty
  | c :: t => listIsPre needle (c :: t) || listHas needle t

/-- Python's `needle in hay` on strings. -/
def strContains (hay needle : String) : Bool :=
  listHas needle.toList hay.toList

/-- A raw rectangle as returned by `page.search_for` or stored in a
span's `bbox`: `(x0, y0, x1, y1)`. -/
structure FRect where
  x0 : ℚ
  y0 : ℚ
  x1 : ℚ
  y1 : ℚ
deriving DecidableEq

/-- The output `Rectangle` model of `models.py`. -/
structure Rectangle where
  x : ℚ
  y : ℚ
  width : ℚ
  height : ℚ
deriving DecidableEq

/-- A span of the layout dictionary: its `"text"` and its `"bbox"`. -/
structure Span where
  text : String
  bbox : FRect

/-- A line is its list of spans. -/
abbrev Line := List Span

/-- A block of `page.get_text("dict")["blocks"]`: `lines` is `some`
when the dictionary has a `"lines"` key (a text block), `none`
otherwise (e.g. an image block). -/
structure Block where
  lines : Option (List Line)

/-- A page: the abstract `page.search_for` primitive plus the layout
dictionary's blocks. -/
structure Page where
  searchFor : String → List FRect
  blocks : List Block

/-- The lines visited by `for block in blocks["blocks"]: if "lines" in
block: for line in block["lines"]`, in visiting order. -/
def pageLines (page : Page) : List Line :=
  (page.blocks.filterMap Block.lines).flatten

/-- `PDFProcessor._similarity`: Jaccard similarity of the word sets of
the two texts. -/
def similarity (text1 text2 : String) : ℚ :=
  let words1 : Finset String := (pySplit text1).toFinset
  let words2 : Finset String := (pySplit text2).toFinset
  if words1 = ∅ ∧ words2 = ∅ then 1
  else if words1 = ∅ ∨ words2 = ∅ then 0
  else ((words1 ∩ words2).card : ℚ) / ((words1 ∪ words2).card : ℚ)

/-- The `partial_score` accumulation loop of
`PDFProcessor._calculate_match_score` (strategy 3): for each
`search_word`, for each `line_word`, add `0.5` when
`len(search_word) > 3 and search_word in line_word`, else add `0.5`
when `len(line_word) > 3 and line_word in search_word`. -/
def partScoreLoop (searchWords lineWords : List String) : ℚ :=
  searchWords.foldl
    (fun acc searchWord =>
      lineWords.foldl
        (fun acc2 lineWord =>
          if searchWord.length > 3 ∧ strContains lineWord searchWord then
            acc2 + 1/2
          else if lineWord.length > 3 ∧ strContains searchWord lineWord then
            acc2 + 1/2
          else acc2)
        acc)
    0

/-- The capped strategy-3 score:
`min(partial_score / len(search_words), 1.0) if search_words else 0`. -/
def partWordScore (searchWords lineWords : List String) : ℚ :=
  if searchWords.isEmpty then 0
  else min (partScoreLoop searchWords lineWords / (searchWords.length : ℚ)) 1

/-- `PDFProcessor._calculate_match_score`. -/
def calculateMatchScore (searchText lineText : String)
    (searchWords : List String) : ℚ :=
  if strContains lineText searchText then 1
  else
    let lineWords := pySplit lineText
    let wordMatches : ℕ :=
      (searchWords.filter (fun word => word ∈ lineWords)).length
    let wordScore : ℚ :=
      if searchWords.isEmpty then 0
      else (wordMatches : ℚ) / (searchWords.length : ℚ)
    let partScore := partWordScore searchWords lineWords
    let charScore := similarity searchText lineText
    max wordScore (max partScore charScore)

/-- The union bounding box of a (nonempty) list of span rectangles,
padded as in `_fuzzy_line_search` lines 196–206: `min`/`max` of the
coordinates, horizontal padding 2, vertical padding 1, vertical
offset `+3`. The `[]` case is unreachable behind the
`if line_rects:` guard. -/
def lineUnionRect : List FRect → Rectangle
  | [] => ⟨0, 0, 0, 0⟩
  | r :: rs =>
    let minX := rs.foldl (fun a t => min a t.x0) r.x0
    let minY := rs.foldl (fun a t => min a t.y0) r.y0
    let maxX := rs.foldl (fun a t => max a t.x1) r.x1
    let maxY := rs.foldl (fun a t => max a t.y1) r.y1
    { x := max 0 (minX - 2)
      y := max 0 (minY - 1 + 3)
      width := (maxX - minX) + 4
      height := (maxY - minY) + 2 }

/-- The running state of `_fuzzy_line_search`: `best_score` (initially
`0`) and `best_match` (initially `None`). -/
structure FuzzyState where
  bestScore : ℚ
  bestMatch : Option Rectangle
deriving DecidableEq

/-- The score `_fuzzy_line_search` computes for one line: concatenate
the span texts, normalize, and call `_calculate_match_score`. -/
def lineScore (cleanSearch : String) (searchWords : List String)
    (line : Line) : ℚ :=
  let lineText := String.join (line.map Span.text)
  let cleanLine := reSubWs (pyStrip (pyLower lineText))
  calculateMatchScore cleanSearch cleanLine searchWords

/-- The body of `_fuzzy_line_search`'s per-line loop: update
`(best_score, best_match)` when the line's score strictly exceeds both
the threshold and the best score so far. -/
def fuzzyStep (threshold : ℚ) (cleanSearch : String)
    (searchWords : List String) (st : FuzzyState) (line : Line) :
    FuzzyState :=
  let lineRects := line.map Span.bbox
  let score := lineScore cleanSearch searchWords line
  if score > threshold ∧ score > st.bestScore then
    { bestScore := score
      bestMatch :=
        if lineRects.isEmpty then st.bestMatch
        else some (lineUnionRect lineRects) }
  else st

/-- `PDFProcessor._fuzzy_line_search`. -/
def fuzzyLineSearch (page : Page) (searchText : String)
    (threshold : ℚ) : List Rectangle :=
  let cleanSearch := reSubWs (pyStrip (pyLower searchText))
  let searchWords := pySplit cleanSearch
  let final :=
    (pageLines page).foldl (fuzzyStep threshold cleanSearch searchWords)
      ⟨0, none⟩
  match final.bestMatch with
  | some r => [r]
  | none => []

/-- The guard of the chunk loop: `if len(chunk.strip()) > 3`. -/
def chunkTried (chunk : String) : Bool :=
  (pyStrip chunk).length > 3

/-- The Tier-2/Tier-3 rectangle padding (lines 104–117 and 140–153 of
`pdf_processor.py`): 2%-or-2 horizontal and 10%-or-1 vertical padding,
vertical offset `3`, no horizontal offset. -/
def padCleanRect (rect : FRect) : Rectangle :=
  let paddingX := max 2 ((rect.x1 - rect.x0) * 0.02)
  let paddingY := max 1 ((rect.y1 - rect.y0) * 0.1)
  { x := max 0 (rect.x0 - paddingX)
    y := max 0 (rect.y0 - paddingY + 3)
    width := (rect.x1 - rect.x0) + 2 * paddingX
    height := (rect.y1 - rect.y0) + 2 * paddingY }

/-- The Tier-1 rectangle padding (lines 81–95 of `pdf_processor.py`):
same padding, with `y_offset = 25` and `x_offset = 1.5`. -/
def padExactRect (rect : FRect) : Rectangle :=
  let paddingX := max 2 ((rect.x1 - rect.x0) * 0.02)
  let paddingY := max 1 ((rect.y1 - rect.y0) * 0.1)
  { x := max 0 (rect.x0 - paddingX + 1.5)
    y := max 0 (rect.y0 - paddingY + 25)
    width := (rect.x1 - rect.x0) + 2 * paddingX
    height := (rect.y1 - rect.y0) + 2 * paddingY }

/-- The `for chunk in chunks` loop of `find_text_fuzzy` (lines
135–155): try each chunk whose stripped length exceeds 3 against
`page.search_for`; on the first chunk with any match, return all its
matches padded; otherwise fall through. -/
def tryChunks (page : Page) : List String → List Rectangle
  | [] => []
  | chunk :: rest =>
    if chunkTried chunk then
      let chunkMatches := page.searchFor chunk
      if ¬ chunkMatches.isEmpty then chunkMatches.map padCleanRect
      else tryChunks page rest
    else tryChunks page rest

/-- The four candidate sub-phrases of Tier 3 (lines 126–133): first
half of the words, second half, `words[:min(6, len(words))]` and
`words[-min(6, len(words)):]`. -/
def chunksOf (searchText : String) : List String :=
  let words := pySplit searchText
  [String.intercalate " " (words.take (words.length / 2)),
   String.intercalate " " (words.drop (words.length / 2)),
   String.intercalate " " (words.take (min 6 words.length)),
   String.intercalate " " (words.drop (words.length - min 6 words.length))]

/-- The body of `PDFProcessor.find_text_fuzzy` for the selected page
(lines 77–164): the four-tier cascade of exact raw search, exact
normalized search, partial chunk search and fuzzy line search. -/
def findOnPage (page : Page) (searchText : String)
    (similarityThreshold : ℚ) : List Rectangle :=
  let exactMatches := page.searchFor searchText
  if ¬ exactMatches.isEmpty then exactMatches.map padExactRect
  else
    let cleanSearch := reSubWs (pyStrip searchText)
    let cleanExactMatches := page.searchFor cleanSearch
    if ¬ cleanExactMatches.isEmpty then cleanExactMatches.map padCleanRect
    else
      let chunkResult :=
        if (pySplit searchText).length > 3 then
          tryChunks page (chunksOf searchText)
        else []
      if ¬ chunkResult.isEmpty then chunkResult
      else fuzzyLineSearch page searchText similarityThreshold

/-- `PDFProcessor.find_text_fuzzy`: look the 1-based `page_num` up in
the document (`if page_num <= len(doc)`), run the cascade there, and
return `[]` for an out-of-range page. -/
def find_text_fuzzy (doc : List Page) (searchText : String)
    (pageNum : ℕ) (similarityThreshold : ℚ) : List Rectangle :=
  if pageNum ≤ doc.length then
    match doc[pageNum - 1]? with
    | some page => findOnPage page searchText similarityThreshold
    | none => []
  else []

/-- `PDFProcessor.find_text_coordinates`: unpadded raw search
rectangles of the selected page, `[]` for an out-of-range page. -/
def find_text_coordinates (doc : List Page) (searchText : String)
    (pageNum : ℕ) : List Rectangle :=
  if pageNum ≤ doc.length then
    match doc[pageNum - 1]? with
    | some page =>
        (page.searchFor searchText).map
          (fun rect =>
            { x := rect.x0, y := rect.y0,
              width := rect.x1 - rect.x0, height := rect.y1 - rect.y0 })
    | none => []
  else []

/-! ### Specification-side definitions

The following definitions formalise the wording of the specification;
they are compared against the source embedding above. -/

/-- Tier 1's result set: all raw matches of the query, padded with the
Tier-1 offsets. -/
def tierOneResult (page : Page) (searchText : String) : List Rectangle :=
  (page.searchFor searchText).map padExactRect

/-- Tier 2's result set: all raw matches of the whitespace-normalized
query, padded with the Tier-2 offsets. -/
def tierTwoResult (page : Page) (searchText : String) : List Rectangle :=
  (page.searchFor (reSubWs (pyStrip searchText))).map padCleanRect

/-- Tier 3's result set: the chunk loop, run only when the query has
more than 3 words. -/
def tierThreeResult (page : Page) (searchText : String) : List Rectangle :=
  if (pySplit searchText).length > 3 then tryChunks page (chunksOf searchText)
  else []

/-- Tier 4's result set: the fuzzy line search. -/
def tierFourResult (page : Page) (searchText : String)
    (threshold : ℚ) : List Rectangle :=
  fuzzyLineSearch page searchText threshold

/-- The spec's cascade combinator: the first non-empty result set, or
`[]` when every tier fails. -/
def firstNonEmptyResult : List (List Rectangle) → List Rectangle
  | [] => []
  | l :: ls => if l.isEmpty then firstNonEmptyResult ls else l

/-- Spec side (claim C5): the number of non-whitespace characters of a
candidate sub-phrase. -/
def nonWsCount (s : String) : ℕ :=
  (s.toList.filter (fun c => ¬ pyIsSpace c)).length

/-- Spec side (claim C4, as stated): add `0.5` at most once per query
word longer than 3 characters when it is a substring of some line word
or some line word is a substring of it; divide by the query word count
and cap at `1.0`. -/
def atMostOnceScore (searchWords lineWords : List String) : ℚ :=
  min
    (((searchWords.map (fun sw =>
        if sw.length > 3 ∧
            lineWords.any (fun lw => strContains lw sw || strContains sw lw)
        then (1 : ℚ)/2 else 0)).sum) / (searchWords.length : ℚ))
    1

/-- Spec side (claim C4, amended): the per-pair bonus sum — `0.5` for
every pair of a query word and a line word such that the query word is
longer than 3 characters and contained in the line word, or else the
line word is longer than 3 characters and contained in the query
word. -/
def pairBonusSum (searchWords lineWords : List String) : ℚ :=
  (searchWords.map (fun sw =>
    (lineWords.map (fun lw =>
      if sw.length > 3 ∧ strContains lw sw then (1 : ℚ)/2
      else if lw.length > 3 ∧ strContains sw lw then (1 : ℚ)/2
      else 0)).sum)).sum

/-- Spec side (claim C6): the four Tier-3 candidate sub-phrases in the
spec's wording — first half of the words, second half of the words,
the first 6 words, the last 6 words. -/
def specChunks (searchText : String) : List String :=
  let words := pySplit searchText
  [String.intercalate " " (words.take (words.length / 2)),
   String.intercalate " " (words.drop (words.length / 2)),
   String.intercalate " " (words.take 6),
   String.intercalate " " (words.drop (words.length - 6))]

/-! ### Concrete pages used by witnesses and counterexamples -/

/-- A page on which no search ever matches and whose layout is empty. -/
def pageNone : Page :=
  { searchFor := fun _ => [], blocks := [] }

/-- A page on which exactly the string `"hello"` has one raw match. -/
def pageExact : Page :=
  { searchFor := fun s => if s = "hello" then [⟨0, 0, 100, 10⟩] else [],
    blocks := [] }

/-- A page on which exactly the chunk `"c d e"` has one raw match —
the raw query `"a b c d e"` and its other chunks find nothing. -/
def pageChunk : Page :=
  { searchFor := fun s => if s = "c d e" then [⟨10, 10, 20, 20⟩] else [],
    blocks := [] }

/-- A page on which exactly the normalized query `"a b"` has two raw
matches, so Tier 1 fails on the raw query `"a  b"` and Tier 2 succeeds
with two rectangles. -/
def pageTwoClean : Page :=
  { searchFor := fun s =>
      if s = "a b" then [⟨0, 0, 10, 10⟩, ⟨0, 20, 10, 30⟩] else [],
    blocks := [] }

/-! ### Helper lemmas -/

theorem isEmptyMap {α β : Type} (f : α → β) (l : List α) :
    (l.map f).isEmpty = l.isEmpty := by
  cases l <;> rfl

theorem emptyOfIsEmpty {α : Type} {l : List α} (h : l.isEmpty) : l = [] :=
  List.isEmpty_iff.mp h

/-- The cascade structure of `find_text_fuzzy`'s body: it returns the
first non-empty tier result, in tier order, and `[]` when every tier
is empty. -/
theorem findOnPage_cascade (page : Page) (searchText : String) (thr : ℚ) :
    findOnPage page searchText thr =
      firstNonEmptyResult
        [tierOneResult page searchText, tierTwoResult page searchText,
         tierThreeResult page searchText, tierFourResult page searchText thr] := by
  unfold findOnPage tierOneResult tierTwoResult tierThreeResult tierFourResult
  by_cases h1 : (page.searchFor searchText).isEmpty
  · by_cases h2 : (page.searchFor (reSubWs (pyStrip searchText))).isEmpty
    · by_cases h3 :
        (if (pySplit searchText).length > 3 then
            tryChunks page (chunksOf searchText)
          else []).isEmpty
      · by_cases h4 : (fuzzyLineSearch page searchText thr).isEmpty
        · simp [firstNonEmptyResult, h1, h2, h3, h4, isEmptyMap,
            emptyOfIsEmpty h4]
        · simp [firstNonEmptyResult, h1, h2, h3, h4, isEmptyMap]
      · simp [firstNonEmptyResult, h1, h2, h3, isEmptyMap]
    · simp [firstNonEmptyResult, h1, h2, isEmptyMap]
  · simp [firstNonEmptyResult, h1, isEmptyMap]

/-- The chunk loop returns the padded matches of the first candidate
that is tried (stripped length above 3) and found, and `[]` when no
candidate qualifies. -/
theorem tryChunks_eq_find (page : Page) (cs : List String) :
    tryChunks page cs =
      match cs.find? (fun c => chunkTried c && !(page.searchFor c).isEmpty) with
      | some c => (page.searchFor c).map padCleanRect
      | none => [] := by
  induction cs with
  | nil => rfl
  | cons c rest ih =>
    by_cases h1 : chunkTried c
    · by_cases h2 : (page.searchFor c).isEmpty
      · simp [tryChunks, List.find?_cons, h1, h2, ih]
      · simp [tryChunks, List.find?_cons, h1, h2]
    · simp [tryChunks, List.find?_cons, h1, ih]

/-- The code's `words[:min(6, len(words))]` / `words[-min(6, len(words)):]`
chunks coincide with the spec's "first 6 words" / "last 6 words". -/
theorem chunksOf_eq_specChunks (searchText : String) :
    chunksOf searchText = specChunks searchText := by
  unfold chunksOf specChunks
  have h1 : ∀ l : List String, l.take (min 6 l.length) = l.take 6 := by
    intro l
    rw [List.take_eq_take]
    omega
  have h2 : ∀ l : List String,
      l.drop (l.length - min 6 l.length) = l.drop (l.length - 6) := by
    intro l
    congr 1
    omega
  dsimp only
  rw [h1, h2]

/-! ### Claim C2 -/

/-- C2: for every page, query and threshold, `find_text_fuzzy` returns
exactly the result set of the first tier, in the fixed order exact-raw,
exact-normalized, partial-chunk, fuzzy-line, that produces at least one
rectangle; once a tier produces a non-empty result no later tier is
consulted, and if all four tiers fail the empty list is returned. -/
theorem claim2_short_circuit_cascade (page : Page) (searchText : String)
    (thr : ℚ) :
    findOnPage page searchText thr =
      firstNonEmptyResult
        [tierOneResult page searchText, tierTwoResult page searchText,
         tierThreeResult page searchText, tierFourResult page searchText thr] :=
  findOnPage_cascade page searchText thr

/-! ### Claim C8 -/

/-- C8: `find_text_fuzzy` is total, and when no tier finds any match it
returns the empty rectangle list (not an error value). -/
theorem claim8_no_match_yields_empty (page : Page) (searchText : String)
    (thr : ℚ)
    (h1 : tierOneResult page searchText = [])
    (h2 : tierTwoResult page searchText = [])
    (h3 : tierThreeResult page searchText = [])
    (h4 : tierFourResult page searchText thr = []) :
    findOnPage page searchText thr = [] := by
  rw [findOnPage_cascade, h1, h2, h3, h4]
  rfl

/-- Witness for C8: the spec's own example query on a page where
nothing matches. -/
theorem claim8_witness :
    tierOneResult pageNone "zzzz_not_present_anywhere" = [] ∧
    tierTwoResult pageNone "zzzz_not_present_anywhere" = [] ∧
    tierThreeResult pageNone "zzzz_not_present_anywhere" = [] ∧
    tierFourResult pageNone "zzzz_not_present_anywhere" (9/10) = [] ∧
    findOnPage pageNone "zzzz_not_present_anywhere" (9/10) = [] :=
  ⟨by with_unfolding_all decide, by with_unfolding_all decide,
   by with_unfolding_all decide, by with_unfolding_all decide,
   claim8_no_match_yields_empty pageNone "zzzz_not_present_anywhere" (9/10)
     (by with_unfolding_all decide) (by with_unfolding_all decide)
     (by with_unfolding_all decide) (by with_unfolding_all decide)⟩

/-! ### Claim C9 -/

/-- C9: the locator is a deterministic function of the page layout, the
query text and the threshold — two calls with equal inputs return equal
rectangle lists (in this embedding the function reads the page and has
no other effect, so purity holds by construction). -/
theorem claim9_deterministic (p p' : Page) (q q' : String) (t t' : ℚ)
    (hp : p = p') (hq : q = q') (ht : t = t') :
    findOnPage p q t = findOnPage p' q' t' := by
  subst hp
  subst hq
  subst ht
  rfl

/-- Witness for C9: two calls on the same concrete inputs agree. -/
theorem claim9_witness :
    pageExact = pageExact ∧ ("hello" : String) = "hello" ∧ (9/10 : ℚ) = 9/10 ∧
    findOnPage pageExact "hello" (9/10) = findOnPage pageExact "hello" (9/10) :=
  ⟨rfl, rfl, rfl,
   claim9_deterministic pageExact pageExact "hello" "hello" (9/10) (9/10)
     rfl rfl rfl⟩

/-! ### Claim C10 -/

/-- C10: a page number greater than the number of pages makes both
`find_text_fuzzy` and `find_text_coordinates` return the empty
rectangle list without failing, indistinguishable from a no-match
result. -/
theorem claim10_out_of_range_page (doc : List Page) (searchText : String)
    (pageNum : ℕ) (thr : ℚ) (h : doc.length < pageNum) :
    find_text_fuzzy doc searchText pageNum thr = [] ∧
    find_text_coordinates doc searchText pageNum = [] := by
  constructor
  · unfold find_text_fuzzy
    rw [if_neg (Nat.not_le.mpr h)]
  · unfold find_text_coordinates
    rw [if_neg (Nat.not_le.mpr h)]

/-- Witness for C10: page 3 of a one-page document. -/
theorem claim10_witness :
    ([pageExact] : List Page).length < 3 ∧
    (find_text_fuzzy [pageExact] "hello" 3 (9/10) = [] ∧
     find_text_coordinates [pageExact] "hello" 3 = []) :=
  ⟨by decide,
   claim10_out_of_range_page [pageExact] "hello" 3 (9/10) (by decide)⟩

/-! ### Claim C3 -/

/-- C3: in the Tier-4 fuzzy line search a line qualifies as the new
best candidate only if its score strictly exceeds the threshold and
strictly exceeds the best score seen so far: whenever the score is at
most the threshold (in particular, exactly equal to it) or at most the
current best (in particular, a tie with an earlier line), the state is
left unchanged — the first line encountered wins. -/
theorem claim3_strict_qualification (thr : ℚ) (cleanSearch : String)
    (searchWords : List String) (st : FuzzyState) (line : Line)
    (h : lineScore cleanSearch searchWords line ≤ thr ∨
         lineScore cleanSearch searchWords line ≤ st.bestScore) :
    fuzzyStep thr cleanSearch searchWords st line = st := by
  have hne : ¬ (lineScore cleanSearch searchWords line > thr ∧
      lineScore cleanSearch searchWords line > st.bestScore) := by
    rintro ⟨hgt1, hgt2⟩
    rcases h with h | h
    · exact absurd hgt1 (not_lt.mpr h)
    · exact absurd hgt2 (not_lt.mpr h)
  unfold fuzzyStep
  simp only [lineScore] at hne ⊢
  rw [if_neg hne]

/-- Witness for C3: a line scoring `0` against a threshold of `0.9`
leaves the initial state unchanged. -/
theorem claim3_witness :
    (lineScore "abcd" ["abcd"] [] ≤ 9/10 ∨
     lineScore "abcd" ["abcd"] [] ≤ (FuzzyState.mk 0 none).bestScore) ∧
    fuzzyStep (9/10) "abcd" ["abcd"] ⟨0, none⟩ [] = ⟨0, none⟩ :=
  ⟨Or.inl (by with_unfolding_all decide),
   claim3_strict_qualification (9/10) "abcd" ["abcd"] ⟨0, none⟩ []
     (Or.inl (by with_unfolding_all decide))⟩

/-! ### Claim C1 -/

/-- C1 counterexample: on `pageTwoClean` with the query `"a  b"`,
Tier 1 finds nothing, Tier 2 (the exact normalized search) is the tier
that succeeds, and `find_text_fuzzy` returns two rectangles — refuting
the claim that only Tier 1 may return more than one rectangle. -/
theorem claim1_counterexample :
    pageTwoClean.searchFor "a  b" = [] ∧
    pageTwoClean.searchFor (reSubWs (pyStrip "a  b")) ≠ [] ∧
    (findOnPage pageTwoClean "a  b" (9/10)).length = 2 := by
  refine ⟨?_, ?_, ?_⟩ <;> with_unfolding_all decide

/-- C1 amended: Tiers 1–3 return one rectangle per raw match of the
successful search — so a Tier-2 or Tier-3 success may also return
several rectangles — and only Tier 4, the fuzzy line search, is
guaranteed to return at most one rectangle. -/
theorem claim1_amended (page : Page) (searchText : String) (thr : ℚ) :
    ((page.searchFor searchText).isEmpty →
      ¬ (page.searchFor (reSubWs (pyStrip searchText))).isEmpty →
      findOnPage page searchText thr =
        (page.searchFor (reSubWs (pyStrip searchText))).map padCleanRect) ∧
    (∀ c : String,
      (page.searchFor searchText).isEmpty →
      (page.searchFor (reSubWs (pyStrip searchText))).isEmpty →
      3 < (pySplit searchText).length →
      (chunksOf searchText).find?
          (fun k => chunkTried k && !(page.searchFor k).isEmpty) = some c →
      findOnPage page searchText thr =
        (page.searchFor c).map padCleanRect) ∧
    (fuzzyLineSearch page searchText thr).length ≤ 1 := by
  refine ⟨?_, ?_, ?_⟩
  · intro h1 h2
    unfold findOnPage
    simp [h1, h2]
  · intro c h1 h2 hlen hf
    have hres : tryChunks page (chunksOf searchText) =
        (page.searchFor c).map padCleanRect := by
      rw [tryChunks_eq_find, hf]
    have hpc := List.find?_some hf
    have hne : ¬ ((page.searchFor c).map padCleanRect).isEmpty := by
      rw [isEmptyMap]
      simp only [Bool.and_eq_true, Bool.not_eq_true'] at hpc
      simp [hpc.2]
    unfold findOnPage
    simp [h1, h2, hlen, hres, hne]
  · unfold fuzzyLineSearch
    dsimp only
    split <;> simp

/-- Witness for C1 (amended): the two-match Tier-2 page and the
chunk page. -/
theorem claim1_witness :
    ((pageTwoClean.searchFor "a  b").isEmpty ∧
     ¬ (pageTwoClean.searchFor (reSubWs (pyStrip "a  b"))).isEmpty ∧
     findOnPage pageTwoClean "a  b" (9/10) =
       (pageTwoClean.searchFor (reSubWs (pyStrip "a  b"))).map padCleanRect) ∧
    ((pageChunk.searchFor "a b c d e").isEmpty ∧
     (pageChunk.searchFor (reSubWs (pyStrip "a b c d e"))).isEmpty ∧
     3 < (pySplit "a b c d e").length ∧
     (chunksOf "a b c d e").find?
         (fun k => chunkTried k && !(pageChunk.searchFor k).isEmpty)
       = some "c d e" ∧
     findOnPage pageChunk "a b c d e" (9/10) =
       (pageChunk.searchFor "c d e").map padCleanRect) ∧
    (fuzzyLineSearch pageTwoClean "a  b" (9/10)).length ≤ 1 :=
  ⟨⟨by with_unfolding_all decide, by with_unfolding_all decide,
    (claim1_amended pageTwoClean "a  b" (9/10)).1
      (by with_unfolding_all decide) (by with_unfolding_all decide)⟩,
   ⟨by with_unfolding_all decide, by with_unfolding_all decide,
    by with_unfolding_all decide, by with_unfolding_all decide,
    (claim1_amended pageChunk "a b c d e" (9/10)).2.1 "c d e"
      (by with_unfolding_all decide) (by with_unfolding_all decide)
      (by with_unfolding_all decide) (by with_unfolding_all decide)⟩,
   (claim1_amended pageTwoClean "a  b" (9/10)).2.2⟩

/-! ### Claim C7 -/

/-- C7: every Tier-1 rectangle is computed from the raw match rectangle
`(x0, y0, x1, y1)` as `x = max(0, x0 - pad_x + 1.5)`,
`y = max(0, y0 - pad_y + 25)`, `width = (x1 - x0) + 2*pad_x`,
`height = (y1 - y0) + 2*pad_y` with `pad_x = max(2, (x1-x0)*0.02)` and
`pad_y = max(1, (y1-y0)*0.1)`; Tier-2 rectangles use the same padding
with vertical offset `3` and no horizontal offset. -/
theorem claim7_padding_formulas (page : Page) (searchText : String)
    (thr : ℚ) :
    (¬ (page.searchFor searchText).isEmpty →
      findOnPage page searchText thr =
        (page.searchFor searchText).map (fun r =>
          { x := max 0 (r.x0 - max 2 ((r.x1 - r.x0) * 0.02) + 1.5)
            y := max 0 (r.y0 - max 1 ((r.y1 - r.y0) * 0.1) + 25)
            width := (r.x1 - r.x0) + 2 * max 2 ((r.x1 - r.x0) * 0.02)
            height := (r.y1 - r.y0) + 2 * max 1 ((r.y1 - r.y0) * 0.1) })) ∧
    ((page.searchFor searchText).isEmpty →
      ¬ (page.searchFor (reSubWs (pyStrip searchText))).isEmpty →
      findOnPage page searchText thr =
        (page.searchFor (reSubWs (pyStrip searchText))).map (fun r =>
          { x := max 0 (r.x0 - max 2 ((r.x1 - r.x0) * 0.02))
            y := max 0 (r.y0 - max 1 ((r.y1 - r.y0) * 0.1) + 3)
            width := (r.x1 - r.x0) + 2 * max 2 ((r.x1 - r.x0) * 0.02)
            height := (r.y1 - r.y0) + 2 * max 1 ((r.y1 - r.y0) * 0.1) })) := by
  constructor
  · intro h1
    unfold findOnPage
    rw [if_pos h1]
    rfl
  · intro h1 h2
    unfold findOnPage
    rw [if_neg (by simpa using h1), if_pos h2]
    rfl

/-- Witness for C7: a Tier-1 success on `pageExact` and a Tier-2
success on `pageTwoClean`. -/
theorem claim7_witness :
    (¬ (pageExact.searchFor "hello").isEmpty ∧
      findOnPage pageExact "hello" (9/10) =
        (pageExact.searchFor "hello").map (fun r =>
          { x := max 0 (r.x0 - max 2 ((r.x1 - r.x0) * 0.02) + 1.5)
            y := max 0 (r.y0 - max 1 ((r.y1 - r.y0) * 0.1) + 25)
            width := (r.x1 - r.x0) + 2 * max 2 ((r.x1 - r.x0) * 0.02)
            height := (r.y1 - r.y0) + 2 * max 1 ((r.y1 - r.y0) * 0.1) })) ∧
    ((pageTwoClean.searchFor "a  b").isEmpty ∧
     ¬ (pageTwoClean.searchFor (reSubWs (pyStrip "a  b"))).isEmpty ∧
      findOnPage pageTwoClean "a  b" (9/10) =
        (pageTwoClean.searchFor (reSubWs (pyStrip "a  b"))).map (fun r =>
          { x := max 0 (r.x0 - max 2 ((r.x1 - r.x0) * 0.02))
            y := max 0 (r.y0 - max 1 ((r.y1 - r.y0) * 0.1) + 3)
            width := (r.x1 - r.x0) + 2 * max 2 ((r.x1 - r.x0) * 0.02)
            height := (r.y1 - r.y0) + 2 * max 1 ((r.y1 - r.y0) * 0.1) })) :=
  ⟨⟨by with_unfolding_all decide,
    (claim7_padding_formulas pageExact "hello" (9/10)).1
      (by with_unfolding_all decide)⟩,
   ⟨by with_unfolding_all decide, by with_unfolding_all decide,
    (claim7_padding_formulas pageTwoClean "a  b" (9/10)).2
      (by with_unfolding_all decide) (by with_unfolding_all decide)⟩⟩

/-! ### Claims C5 and C6: the Tier-3 chunk loop -/

/-- C5 counterexample: in the query `"a b c d e"` the candidate
sub-phrase `"c d e"` has only 3 non-whitespace characters — the claim
says it must be skipped — yet the code tries it (its stripped length,
counting the interior spaces, is 5 > 3) and `find_text_fuzzy` returns
its match. -/
theorem claim5_counterexample :
    chunksOf "a b c d e" = ["a b", "c d e", "a b c d e", "a b c d e"] ∧
    nonWsCount "c d e" = 3 ∧
    chunkTried "c d e" = true ∧
    findOnPage pageChunk "a b c d e" (9/10) =
      [{ x := 8, y := 12, width := 14, height := 12 }] := by
  refine ⟨?_, ?_, ?_, ?_⟩ <;> with_unfolding_all decide

/-- C5 amended: a candidate sub-phrase is skipped exactly when its
stripped length — `len(chunk.strip())`, which counts interior spaces —
is at most 3; every candidate of stripped length at least 4 is tried
against the exact-search primitive (returning its padded matches when
it has any, continuing with the remaining candidates otherwise). -/
theorem claim5_amended (page : Page) (chunk : String) (rest : List String) :
    ((pyStrip chunk).length ≤ 3 →
      tryChunks page (chunk :: rest) = tryChunks page rest) ∧
    (3 < (pyStrip chunk).length → ¬ (page.searchFor chunk).isEmpty →
      tryChunks page (chunk :: rest) =
        (page.searchFor chunk).map padCleanRect) ∧
    (3 < (pyStrip chunk).length → (page.searchFor chunk).isEmpty →
      tryChunks page (chunk :: rest) = tryChunks page rest) := by
  refine ⟨?_, ?_, ?_⟩
  · intro h
    have hc : ¬ chunkTried chunk = true := by
      simp [chunkTried]
      omega
    simp [tryChunks, hc]
  · intro h hm
    have hc : chunkTried chunk = true := by
      simp [chunkTried]
      omega
    simp [tryChunks, hc, hm]
  · intro h hm
    have hc : chunkTried chunk = true := by
      simp [chunkTried]
      omega
    simp [tryChunks, hc, hm]

/-- Witness for C5 (amended): a skipped short candidate, a tried and
found candidate, and a tried but absent candidate. -/
theorem claim5_witness :
    ((pyStrip "a b").length ≤ 3 ∧
      tryChunks pageChunk ["a b", "c d e"] = tryChunks pageChunk ["c d e"]) ∧
    (3 < (pyStrip "c d e").length ∧
     ¬ (pageChunk.searchFor "c d e").isEmpty ∧
      tryChunks pageChunk ["c d e"] =
        (pageChunk.searchFor "c d e").map padCleanRect) ∧
    (3 < (pyStrip "wxyz").length ∧ (pageChunk.searchFor "wxyz").isEmpty ∧
      tryChunks pageChunk ["wxyz"] = tryChunks pageChunk []) :=
  ⟨⟨by with_unfolding_all decide,
    (claim5_amended pageChunk "a b" ["c d e"]).1
      (by with_unfolding_all decide)⟩,
   ⟨by with_unfolding_all decide, by with_unfolding_all decide,
    (claim5_amended pageChunk "c d e" []).2.1
      (by with_unfolding_all decide) (by with_unfolding_all decide)⟩,
   ⟨by with_unfolding_all decide, by with_unfolding_all decide,
    (claim5_amended pageChunk "wxyz" []).2.2
      (by with_unfolding_all decide) (by with_unfolding_all decide)⟩⟩

/-- C6: Tier 3 runs only when the query has more than 3 words; it
tries the candidates in the fixed order first half, second half, first
6 words, last 6 words, and returns the padded matches of the first
candidate that is tried and found, never evaluating later candidates
after one succeeds. -/
theorem claim6_chunk_order_first_success (page : Page)
    (searchText : String) :
    ((pySplit searchText).length ≤ 3 → tierThreeResult page searchText = []) ∧
    (3 < (pySplit searchText).length →
      tierThreeResult page searchText =
        match (specChunks searchText).find?
            (fun c => chunkTried c && !(page.searchFor c).isEmpty) with
        | some c => (page.searchFor c).map padCleanRect
        | none => []) := by
  constructor
  · intro h
    unfold tierThreeResult
    rw [if_neg (by omega)]
  · intro h
    unfold tierThreeResult
    rw [if_pos h, chunksOf_eq_specChunks]
    exact tryChunks_eq_find page _

/-- Witness for C6: a 2-word query yields nothing; for the 5-word
query `"a b c d e"` on `pageChunk` the first found candidate is the
second-half chunk `"c d e"`. -/
theorem claim6_witness :
    ((pySplit "a b").length ≤ 3 ∧ tierThreeResult pageChunk "a b" = []) ∧
    (3 < (pySplit "a b c d e").length ∧
      tierThreeResult pageChunk "a b c d e" =
        match (specChunks "a b c d e").find?
            (fun c => chunkTried c && !(pageChunk.searchFor c).isEmpty) with
        | some c => (pageChunk.searchFor c).map padCleanRect
        | none => []) :=
  ⟨⟨by with_unfolding_all decide,
    (claim6_chunk_order_first_success pageChunk "a b").1
      (by with_unfolding_all decide)⟩,
   ⟨by with_unfolding_all decide,
    (claim6_chunk_order_first_success pageChunk "a b c d e").2
      (by with_unfolding_all decide)⟩⟩

/-! ### Claim C4: the partial-word score -/

/-- The inner `for line_word in line_words` loop accumulates the sum
of the per-pair bonuses for one query word. -/
theorem innerLoop_eq_sum (sw : String) (lws : List String) (a : ℚ) :
    lws.foldl
      (fun acc2 lw =>
        if sw.length > 3 ∧ strContains lw sw then acc2 + 1/2
        else if lw.length > 3 ∧ strContains sw lw then acc2 + 1/2
        else acc2) a
    = a + (lws.map (fun lw =>
        if sw.length > 3 ∧ strContains lw sw then (1 : ℚ)/2
        else if lw.length > 3 ∧ strContains sw lw then (1 : ℚ)/2
        else 0)).sum := by
  induction lws generalizing a with
  | nil => simp
  | cons lw t ih =>
    simp only [List.foldl_cons, List.map_cons, List.sum_cons]
    by_cases hp1 : sw.length > 3 ∧ strContains lw sw = true
    · rw [if_pos hp1, if_pos hp1, ih]
      ring
    · by_cases hp2 : lw.length > 3 ∧ strContains sw lw = true
      · rw [if_neg hp1, if_pos hp2, if_neg hp1, if_pos hp2, ih]
        ring
      · rw [if_neg hp1, if_neg hp2, if_neg hp1, if_neg hp2, ih]
        ring

/-- The double loop of strategy 3 computes exactly the per-pair bonus
sum. -/
theorem partScoreLoop_eq_pairBonusSum (sws lws : List String) :
    partScoreLoop sws lws = pairBonusSum sws lws := by
  unfold partScoreLoop pairBonusSum
  have houter : ∀ (t : List String) (a : ℚ),
      t.foldl
        (fun acc sw =>
          lws.foldl
            (fun acc2 lw =>
              if sw.length > 3 ∧ strContains lw sw then acc2 + 1/2
              else if lw.length > 3 ∧ strContains sw lw then acc2 + 1/2
              else acc2) acc) a
      = a + (t.map (fun sw =>
          (lws.map (fun lw =>
            if sw.length > 3 ∧ strContains lw sw then (1 : ℚ)/2
            else if lw.length > 3 ∧ strContains sw lw then (1 : ℚ)/2
            else 0)).sum)).sum := by
    intro t
    induction t with
    | nil => simp
    | cons sw t ih =>
      intro a
      simp only [List.foldl_cons, List.map_cons, List.sum_cons]
      rw [innerLoop_eq_sum, ih]
      ring
  rw [houter]
  ring

/-- C4 counterexample: with query words `["test", "aaaa", "bbbb",
"cccc"]` and line words `["testing", "tested"]`, the single query word
`"test"` contributes `0.5` twice (once per matching line word), so the
code's capped partial score is `1/4` while the claimed
at-most-once-per-query-word formula gives `1/8`. -/
theorem claim4_counterexample :
    partWordScore ["test", "aaaa", "bbbb", "cccc"] ["testing", "tested"]
      = 1/4 ∧
    atMostOnceScore ["test", "aaaa", "bbbb", "cccc"] ["testing", "tested"]
      = 1/8 := by
  constructor <;> with_unfolding_all decide

/-- C4 amended: the partial-word component adds `0.5` for every pair
of a query word and a line word such that the query word is longer
than 3 characters and is a substring of the line word, or else the
line word is longer than 3 characters and is a substring of the query
word — so one query word may contribute once per matching line word —
then divides the total by the number of query words and caps the
result at `1.0`. -/
theorem claim4_pairwise_partial_score (searchWords lineWords : List String)
    (h : searchWords ≠ []) :
    partWordScore searchWords lineWords =
      min (pairBonusSum searchWords lineWords / (searchWords.length : ℚ)) 1 := by
  unfold partWordScore
  rw [if_neg (by simp [List.isEmpty_iff, h]), partScoreLoop_eq_pairBonusSum]

/-- Witness for C4 (amended). -/
theorem claim4_witness :
    (["test"] : List String) ≠ [] ∧
    partWordScore ["test"] ["testing"] =
      min (pairBonusSum ["test"] ["testing"] /
        ((["test"] : List String).length : ℚ)) 1 :=
  ⟨by decide,
   claim4_pairwise_partial_score ["test"] ["testing"] (by decide)⟩

end LegalCat
